import Mathlib

/-!
Verification of the Windows window-event translation layer
(`crates/gpui/src/platform/windows/events.rs`).

The embedding models each message handler as a pure function from the
window state (plus the OS-supplied message parameters and ambient OS
query results, which the real code obtains through Win32 calls) to a
new window state, an optional `LRESULT` value, and a list of observable
effects (input events delivered to the registered input callback,
renderer resizes, window-placement requests, and so on).

Ambient OS facilities that the handlers merely read (the live modifier
key state from `GetKeyState`, the `ScreenToClient` coordinate transform,
the monitor under the window from `MonitorFromWindow`, IME composition
strings from `ImmGetCompositionStringW`, the keyboard-layout key
resolution of `parse_normal_key`) are passed in as explicit parameters;
they are inputs of the translation layer, not part of its state.
Floating-point quantities (scale factor, logical coordinates) are
modelled over `ℚ`; the claims under verification concern which values
are stored and which callbacks fire, not float rounding.
-/

namespace WinMsg

/-- Keyboard modifier snapshot, mirroring gpui's `Modifiers` as used by
`current_modifiers` in events.rs (the `function` field is always false
on Windows). -/
structure Modifiers where
  control : Bool
  alt : Bool
  shift : Bool
  platform : Bool
  function : Bool
deriving DecidableEq, Repr

/-- Caps-lock snapshot, mirroring gpui's `Capslock` (`current_capslock`).
The source field is named `on`, a reserved word here. -/
structure Capslock where
  on_flag : Bool
deriving DecidableEq, Repr

/-- Direction for mouse navigation buttons (`NavigationDirection`). -/
inductive NavigationDirection where
  | back
  | forward
deriving DecidableEq, Repr

/-- Mouse buttons as dispatched by `handle_msg` (`MouseButton`). -/
inductive MouseButton where
  | left
  | right
  | middle
  | navigate (dir : NavigationDirection)
deriving DecidableEq, Repr

/-- Result returned by the application's input callback
(`DispatchEventResult` in gpui): `propagate` false means the event was
consumed; `default_prevented` asks the platform to suppress default
window-proc behaviour. -/
structure DispatchResult where
  propagate : Bool
  default_prevented : Bool
deriving DecidableEq, Repr

/-- A resolved keystroke (`Keystroke`).  The key name resolved through
the keyboard layout is abstracted to a numeric identifier; `key_char`
is the optional textual character for the held modifier combination. -/
structure Keystroke where
  modifiers : Modifiers
  key : Nat
  key_char : Option Nat
deriving DecidableEq, Repr

/-- Normalized input events handed to the input callback
(`PlatformInput` constructors used by events.rs).  Positions are
logical coordinates; scroll deltas are in lines/characters. -/
inductive PlatformInput where
  | mouseDown (button : MouseButton) (position : ℚ × ℚ) (modifiers : Modifiers)
      (click_count : Nat) (first_mouse : Bool)
  | mouseUp (button : MouseButton) (position : ℚ × ℚ) (modifiers : Modifiers)
      (click_count : Nat)
  | mouseMove (position : ℚ × ℚ) (pressed_button : Option MouseButton)
      (modifiers : Modifiers)
  | scrollWheel (position : ℚ × ℚ) (delta : ℚ × ℚ) (modifiers : Modifiers)
  | keyDown (keystroke : Keystroke) (is_held : Bool)
  | keyUp (keystroke : Keystroke)
  | modifiersChanged (modifiers : Modifiers) (capslock : Capslock)
deriving DecidableEq, Repr

/-- Text mutations issued through the `PlatformInputHandler`
abstraction (`replace_text_in_range` / `replace_and_mark_text_in_range`).
Strings are lists of Unicode scalar values; a caret is a
`pos..pos` range. -/
inductive TextMutation where
  | replaceText (s : List Nat)
  | replaceAndMark (s : List Nat) (caret : Option (Nat × Nat))
deriving DecidableEq, Repr

/-- Observable effects a handler performs besides mutating the window
state and returning an `LRESULT`. -/
inductive Effect where
  | inputEvent (e : PlatformInput)
  | hoverChanged (hovered : Bool)
  | rendererResize (w h : Int)
  | resizeCallback (size : ℚ × ℚ) (scale : ℚ)
  | setWindowPos (x y w h : Int)
  | minimizeWindow
  | showNormalWindow
  | maximizeWindow
  | postCloseMessage
  | showNormalForDisplayChange
deriving DecidableEq, Repr

/-- What `handle_msg` does with a handler's `Option<isize>` result
(events.rs lines 186-192): `some n` is returned to the OS as
`LRESULT(n)`; `none` falls through to `DefWindowProcW`. -/
inductive RouterResult where
  | lresult (n : Int)
  | defWindowProc
deriving DecidableEq, Repr

/-- events.rs line 186-192: the router returns the handler's value, or
performs default processing when the handler declined. -/
def router_result (handled : Option Int) : RouterResult :=
  match handled with
  | some n => RouterResult.lresult n
  | none => RouterResult.defWindowProc

/-- The mutable per-window state (`WindowsWindowState`) restricted to
the fields events.rs reads or writes.  Application callbacks that the
handlers only probe for presence are `Option Nat` tokens; the input
callback, whose return value steers control flow, is a function value.
`maximized` is the result of `WindowsWindowState::is_maximized()`
(derived from the OS window placement); `click_state_current_count`
is `ClickState`'s stored running count; `wheel_scroll_lines` and
`wheel_scroll_chars` are the system-settings snapshot. -/
structure WindowsWindowState where
  scale_factor : ℚ
  logical_size : ℚ × ℚ
  maximized : Bool
  pending_surrogate : Option Nat
  last_reported_modifiers : Option Modifiers
  last_reported_capslock : Option Capslock
  nc_button_pressed : Option Nat
  click_state_current_count : Nat
  display : Nat
  hovered : Bool
  callbacks_input : Option (PlatformInput → DispatchResult)
  callbacks_resize : Option Nat
  callbacks_request_frame : Option Nat
  restore_from_minimized : Option Nat
  input_handler : Bool
  wheel_scroll_lines : Int
  wheel_scroll_chars : Int

/-- A handler's outcome: next state, `Option<isize>` result, effects. -/
structure HandlerResult where
  state : WindowsWindowState
  result : Option Int
  effects : List Effect

/-- Win32 hit-test code `HTMINBUTTON`. -/
def HTMINBUTTON : Nat := 8

/-- Win32 hit-test code `HTMAXBUTTON`. -/
def HTMAXBUTTON : Nat := 9

/-- Win32 hit-test code `HTCLOSE`. -/
def HTCLOSE : Nat := 20

/-- IME flag `GCS_COMPSTR` (0x0008). -/
def GCS_COMPSTR : Nat := 8

/-- IME flag `GCS_CURSORPOS` (0x0080). -/
def GCS_CURSORPOS : Nat := 128

/-- IME flag `GCS_RESULTSTR` (0x0800). -/
def GCS_RESULTSTR : Nat := 2048

/-- `logical_point(x, y, scale_factor)`: device pixels to logical
coordinates (divide by the scale factor). -/
def logical_point (x y : Int) (scale_factor : ℚ) : ℚ × ℚ :=
  ((x : ℚ) / scale_factor, (y : ℚ) / scale_factor)

/-- Rust `char::is_control`: the Unicode Cc category,
U+0000..U+001F and U+007F..U+009F. -/
def is_control (c : Nat) : Bool :=
  c ≤ 0x1F || (0x7F ≤ c && c ≤ 0x9F)

/-- Rust `char::from_u32`: succeeds for every scalar value, i.e. any
code point below 0x110000 that is not a surrogate. -/
def char_from_u32 (n : Nat) : Option Nat :=
  if n < 0x110000 ∧ ¬(0xD800 ≤ n ∧ n ≤ 0xDFFF) then some n else none

/-- `String::from_utf16(&[high_surrogate, code_point]).ok()` for a
two-unit buffer: decodes a surrogate pair to its single scalar value,
failing unless the first unit is a high and the second a low
surrogate. -/
def from_utf16_pair (high low : Nat) : Option (List Nat) :=
  if 0xD800 ≤ high ∧ high ≤ 0xDBFF ∧ 0xDC00 ≤ low ∧ low ≤ 0xDFFF then
    some [0x10000 + (high - 0xD800) * 0x400 + (low - 0xDC00)]
  else none

/-- `WindowsWindowInner::parse_char_message` (events.rs 1423-1453):
the UTF-16 reassembly state machine over `WM_CHAR` code units.
`code_point` is `wparam.loword()`.  Returns the updated state and the
optional produced text (a list of Unicode scalar values). -/
def parse_char_message (st : WindowsWindowState) (code_point : Nat) :
    WindowsWindowState × Option (List Nat) :=
  if 0xD800 ≤ code_point ∧ code_point ≤ 0xDBFF then
    -- High surrogate, wait for low surrogate
    ({st with pending_surrogate := some code_point}, none)
  else if 0xDC00 ≤ code_point ∧ code_point ≤ 0xDFFF then
    match st.pending_surrogate with
    | some high_surrogate =>
        -- Low surrogate, combine with pending high surrogate
        ({st with pending_surrogate := none}, from_utf16_pair high_surrogate code_point)
    | none =>
        -- Invalid low surrogate without a preceding high surrogate: logged, dropped
        ({st with pending_surrogate := none}, none)
  else
    ({st with pending_surrogate := none},
     ((char_from_u32 code_point).filter (fun c => !(is_control c))).map (fun c => [c]))

/-- The virtual-key classification relevant to `handle_key_event`:
`modifierKey` covers VK_SHIFT/VK_CONTROL/VK_MENU/VK_LWIN/VK_RWIN;
`packet` is VK_PACKET; `capital` is VK_CAPITAL; `normal` carries the
keyboard layout's `parse_normal_key` result (an OS-side resolution,
supplied as input). -/
inductive VKeyMsg where
  | modifierKey
  | packet
  | capital
  | normal (resolved : Option Keystroke)
deriving Repr

/-- `handle_key_event` (events.rs 1517-1580).  `mods` and `caps` are
the live `current_modifiers()` / `current_capslock()` snapshots taken
at processing time; `f` is the continuation building the key
up/down event. -/
def handle_key_event (st : WindowsWindowState) (mods : Modifiers) (caps : Capslock)
    (key : VKeyMsg) (f : Keystroke → PlatformInput) :
    WindowsWindowState × Option PlatformInput :=
  match key with
  | VKeyMsg.modifierKey =>
    if st.last_reported_modifiers = some mods then
      (st, none)
    else
      ({st with last_reported_modifiers := some mods},
       some (PlatformInput.modifiersChanged mods caps))
  | VKeyMsg.packet => (st, none)
  | VKeyMsg.capital =>
    if st.last_reported_capslock = some caps then
      (st, none)
    else
      ({st with last_reported_capslock := some caps},
       some (PlatformInput.modifiersChanged mods caps))
  | VKeyMsg.normal resolved => (st, resolved.map f)

/-- `handle_keydown_msg` (events.rs 503-538).  `marked_text_range` is
the input handler's `marked_text_range()` answer (an IME-session
query); the input handler itself is taken and restored, leaving its
presence unchanged.  `is_held` is bit 30 of the raw lparam. -/
def handle_keydown_msg (st : WindowsWindowState) (key : VKeyMsg) (mods : Modifiers)
    (caps : Capslock) (is_held : Bool) (marked_text_range : Bool) : HandlerResult :=
  match handle_key_event st mods caps key (fun ks => PlatformInput.keyDown ks is_held) with
  | (st', none) => ⟨st', some 1, []⟩
  | (st', some input) =>
    let is_composing := st'.input_handler && marked_text_range
    if is_composing then
      ⟨st', some 0, []⟩
    else
      match st'.callbacks_input with
      | none => ⟨st', some 1, []⟩
      | some func =>
        if !(func input).propagate then ⟨st', some 0, [Effect.inputEvent input]⟩
        else ⟨st', some 1, [Effect.inputEvent input]⟩

/-- `handle_keyup_msg` (events.rs 540-557). -/
def handle_keyup_msg (st : WindowsWindowState) (key : VKeyMsg) (mods : Modifiers)
    (caps : Capslock) : HandlerResult :=
  match handle_key_event st mods caps key (fun ks => PlatformInput.keyUp ks) with
  | (st', none) => ⟨st', some 1, []⟩
  | (st', some input) =>
    match st'.callbacks_input with
    | none => ⟨st', some 1, []⟩
    | some func =>
      if !(func input).propagate then ⟨st', some 0, [Effect.inputEvent input]⟩
      else ⟨st', some 1, [Effect.inputEvent input]⟩

/-- `MODIFIERKEYS_FLAGS` decoding of the pressed button in
`handle_mouse_move_msg` (events.rs 424-435): MK_LBUTTON 0x01,
MK_RBUTTON 0x02, MK_MBUTTON 0x10, MK_XBUTTON1 0x20, MK_XBUTTON2 0x40,
checked in that order. -/
def pressed_button_from_flags (flags : Nat) : Option MouseButton :=
  if flags &&& 1 ≠ 0 then some MouseButton.left
  else if flags &&& 2 ≠ 0 then some MouseButton.right
  else if flags &&& 16 ≠ 0 then some MouseButton.middle
  else if flags &&& 32 ≠ 0 then some (MouseButton.navigate NavigationDirection.back)
  else if flags &&& 64 ≠ 0 then some (MouseButton.navigate NavigationDirection.forward)
  else none

/-- `start_tracking_mouse` (events.rs 1455-1476): sets `hovered`, arms
`TrackMouseEvent` (an OS call, not tracked), and fires the
hover-change callback when the window was not hovered. -/
def start_tracking_mouse (st : WindowsWindowState) (hover_callback_present : Bool) :
    WindowsWindowState × List Effect :=
  if st.hovered then (st, [])
  else
    ({st with hovered := true},
     if hover_callback_present then [Effect.hoverChanged true] else [])

/-- `handle_mouse_move_msg` (events.rs 410-447).  `x`, `y` are the
signed low/high words of lparam; `wparam_lo` the low word of wparam;
`mods` the live `current_modifiers()`; `hover_cb` whether a
hover-change callback is registered. -/
def handle_mouse_move_msg (st : WindowsWindowState) (x y : Int) (wparam_lo : Nat)
    (mods : Modifiers) (hover_cb : Bool) : HandlerResult :=
  let tracked := start_tracking_mouse st hover_cb
  let st₁ := tracked.1
  match st₁.callbacks_input with
  | none => ⟨st₁, some 1, tracked.2⟩
  | some func =>
    let input := PlatformInput.mouseMove (logical_point x y st₁.scale_factor)
      (pressed_button_from_flags wparam_lo) mods
    if !(func input).propagate then ⟨st₁, some 0, tracked.2 ++ [Effect.inputEvent input]⟩
    else ⟨st₁, some 1, tracked.2 ++ [Effect.inputEvent input]⟩

/-- `handle_mouse_down_msg` (events.rs 576-609).  `click_count` is the
value returned by `ClickState::update` (the click classifier lives
outside this file; per the data model it becomes the stored running
count). -/
def handle_mouse_down_msg (st : WindowsWindowState) (button : MouseButton)
    (x y : Int) (mods : Modifiers) (click_count : Nat) : HandlerResult :=
  match st.callbacks_input with
  | none => ⟨st, some 1, []⟩
  | some func =>
    let st' := {st with click_state_current_count := click_count}
    let input := PlatformInput.mouseDown button (logical_point x y st'.scale_factor)
      mods click_count false
    if !(func input).propagate then ⟨st', some 0, [Effect.inputEvent input]⟩
    else ⟨st', some 1, [Effect.inputEvent input]⟩

/-- `handle_mouse_up_msg` (events.rs 611-638): the delivered click
count is the classifier's stored running count
(`lock.click_state.current_count`). -/
def handle_mouse_up_msg (st : WindowsWindowState) (button : MouseButton)
    (x y : Int) (mods : Modifiers) : HandlerResult :=
  match st.callbacks_input with
  | none => ⟨st, some 1, []⟩
  | some func =>
    let click_count := st.click_state_current_count
    let input := PlatformInput.mouseUp button (logical_point x y st.scale_factor)
      mods click_count
    if !(func input).propagate then ⟨st, some 0, [Effect.inputEvent input]⟩
    else ⟨st, some 1, [Effect.inputEvent input]⟩

/-- `handle_mouse_wheel_msg` (events.rs 655-699).  `wheel_delta` is the
signed high word of wparam, `client` the `ScreenToClient`-transformed
cursor point (the affine transform is an OS call, its result is an
input here). -/
def handle_mouse_wheel_msg (st : WindowsWindowState) (wheel_delta : Int)
    (client : Int × Int) (mods : Modifiers) : HandlerResult :=
  match st.callbacks_input with
  | none => ⟨st, some 1, []⟩
  | some func =>
    let wheel_scroll_amount : Int :=
      if mods.shift then st.wheel_scroll_chars else st.wheel_scroll_lines
    let wheel_distance : ℚ := ((wheel_delta : ℚ) / 120) * (wheel_scroll_amount : ℚ)
    let delta : ℚ × ℚ := if mods.shift then (wheel_distance, 0) else (0, wheel_distance)
    let input := PlatformInput.scrollWheel
      (logical_point client.1 client.2 st.scale_factor) delta mods
    if !(func input).propagate then ⟨st, some 0, [Effect.inputEvent input]⟩
    else ⟨st, some 1, [Effect.inputEvent input]⟩

/-- The chrome-button arming tail of `handle_nc_mouse_down_msg`
(events.rs 1145-1156): only a left press on one of the three chrome
buttons is recorded; everything else falls through to the OS. -/
def handle_nc_mouse_down_arm (st : WindowsWindowState) (button : MouseButton)
    (wparam : Nat) (effs : List Effect) : HandlerResult :=
  if button = MouseButton.left then
    if wparam = HTMINBUTTON then
      ⟨{st with nc_button_pressed := some HTMINBUTTON}, some 0, effs⟩
    else if wparam = HTMAXBUTTON then
      ⟨{st with nc_button_pressed := some HTMAXBUTTON}, some 0, effs⟩
    else if wparam = HTCLOSE then
      ⟨{st with nc_button_pressed := some HTCLOSE}, some 0, effs⟩
    else ⟨st, none, effs⟩
  else ⟨st, none, effs⟩

/-- `handle_nc_mouse_down_msg` (events.rs 1108-1157).  `client` is the
`ScreenToClient` result for the lparam point; `click_count` the
classifier's `ClickState::update` result. -/
def handle_nc_mouse_down_msg (st : WindowsWindowState) (button : MouseButton)
    (wparam : Nat) (client : Int × Int) (mods : Modifiers) (click_count : Nat) :
    HandlerResult :=
  match st.callbacks_input with
  | some func =>
    let st' := {st with click_state_current_count := click_count}
    let input := PlatformInput.mouseDown button
      (logical_point client.1 client.2 st'.scale_factor) mods click_count false
    let r := func input
    if !r.propagate || r.default_prevented then
      ⟨st', some 0, [Effect.inputEvent input]⟩
    else
      handle_nc_mouse_down_arm st' button wparam [Effect.inputEvent input]
  | none => handle_nc_mouse_down_arm st button wparam []

/-- The button-action tail of `handle_nc_mouse_up_msg`
(events.rs 1192-1223): `nc_button_pressed` is taken (cleared)
unconditionally; the armed action fires only for a left release whose
hit-test code matches the armed one. -/
def handle_nc_mouse_up_action (st : WindowsWindowState) (button : MouseButton)
    (wparam : Nat) (effs : List Effect) : HandlerResult :=
  let last_pressed := st.nc_button_pressed
  let st' := {st with nc_button_pressed := none}
  if button = MouseButton.left then
    match last_pressed with
    | some lp =>
      if wparam = HTMINBUTTON ∧ lp = HTMINBUTTON then
        ⟨st', some 0, effs ++ [Effect.minimizeWindow]⟩
      else if wparam = HTMAXBUTTON ∧ lp = HTMAXBUTTON then
        ⟨st', some 0,
         effs ++ [if st'.maximized then Effect.showNormalWindow else Effect.maximizeWindow]⟩
      else if wparam = HTCLOSE ∧ lp = HTCLOSE then
        ⟨st', some 0, effs ++ [Effect.postCloseMessage]⟩
      else ⟨st', none, effs⟩
    | none => ⟨st', none, effs⟩
  else ⟨st', none, effs⟩

/-- `handle_nc_mouse_up_msg` (events.rs 1159-1224).  The mouse-up event
delivered to the input callback always carries `click_count: 1`. -/
def handle_nc_mouse_up_msg (st : WindowsWindowState) (button : MouseButton)
    (wparam : Nat) (client : Int × Int) (mods : Modifiers) : HandlerResult :=
  match st.callbacks_input with
  | some func =>
    let input := PlatformInput.mouseUp button
      (logical_point client.1 client.2 st.scale_factor) mods 1
    if !(func input).propagate then
      ⟨st, some 0, [Effect.inputEvent input]⟩
    else
      handle_nc_mouse_up_action st button wparam [Effect.inputEvent input]
  | none => handle_nc_mouse_up_action st button wparam []

/-- `handle_ime_composition_inner` (events.rs 785-817).  `lparam` is
the composition flag word; `comp_string` / `result_string` are the
`parse_ime_composition_string` answers for GCS_COMPSTR / GCS_RESULTSTR
(OS queries against the composition context, supplied as inputs);
`cursor_pos` is `retrieve_composition_cursor_position`.  Returns the
text mutations issued through the input handler and the
`Option<isize>` result. -/
def handle_ime_composition_inner (st : WindowsWindowState) (lparam : Nat)
    (comp_string : Option (List Nat)) (result_string : Option (List Nat))
    (cursor_pos : Nat) : List TextMutation × Option Int :=
  if lparam = 0 then
    -- Japanese IME may send lparam = 0: clear any marked text
    if st.input_handler then ([TextMutation.replaceText []], some 0) else ([], none)
  else
    if lparam &&& GCS_COMPSTR ≠ 0 then
      match comp_string with
      | none => ([], none)
      | some s =>
        if st.input_handler then
          let caret : Option (Nat × Nat) :=
            if s ≠ [] ∧ lparam &&& GCS_CURSORPOS ≠ 0 then some (cursor_pos, cursor_pos)
            else none
          let muts := [TextMutation.replaceAndMark s caret]
          if lparam &&& GCS_RESULTSTR ≠ 0 then
            match result_string with
            | none => (muts, none)
            | some r => (muts ++ [TextMutation.replaceText r], some 0)
          else (muts, none)
        else ([], none)
    else
      if lparam &&& GCS_RESULTSTR ≠ 0 then
        match result_string with
        | none => ([], none)
        | some r =>
          if st.input_handler then ([TextMutation.replaceText r], some 0)
          else ([], none)
      else ([], none)

/-- `handle_size_change` (events.rs 300-322): update the logical size,
resize the renderer when requested, and fire the resize callback. -/
def handle_size_change (st : WindowsWindowState) (dw dh : Int) (scale_factor : ℚ)
    (should_resize_renderer : Bool) : WindowsWindowState × List Effect :=
  let new_logical_size : ℚ × ℚ := ((dw : ℚ) / scale_factor, (dh : ℚ) / scale_factor)
  let st' := {st with logical_size := new_logical_size}
  let effs := if should_resize_renderer then [Effect.rendererResize dw dh] else []
  match st'.callbacks_resize with
  | some _ => (st', effs ++ [Effect.resizeCallback new_logical_size scale_factor])
  | none => (st', effs)

/-- `handle_size_msg` (events.rs 255-298).  `wparam = 1` is
SIZE_MINIMIZED; `lw`, `lh` are the low/high words of lparam. -/
def handle_size_msg (st : WindowsWindowState) (wparam : Nat) (lw lh : Nat) :
    HandlerResult :=
  if wparam = 1 then
    ⟨{st with restore_from_minimized := st.callbacks_request_frame,
              callbacks_request_frame := none}, some 0, []⟩
  else
    let width : Int := (max lw 1 : Nat)
    let height : Int := (max lh 1 : Nat)
    let scale_factor := st.scale_factor
    match st.restore_from_minimized with
    | some cb =>
      let st₁ := {st with callbacks_request_frame := some cb, restore_from_minimized := none}
      let changed := handle_size_change st₁ width height scale_factor false
      ⟨changed.1, some 0, changed.2⟩
    | none =>
      let changed := handle_size_change st width height scale_factor true
      ⟨changed.1, some 0, changed.2⟩

/-- The OS-suggested window rectangle carried by WM_DPICHANGED's
lparam. -/
structure SuggestedRect where
  left : Int
  top : Int
  right : Int
  bottom : Int
deriving DecidableEq, Repr

/-- `handle_dpi_changed_msg` (events.rs 899-954).  `new_dpi` is the low
word of wparam; USER_DEFAULT_SCREEN_DPI is 96.  `SetWindowPos` to the
suggested rectangle is recorded as an effect; when maximized the
handler synchronously runs the `handle_size_change` path (the OS sends
no separate WM_SIZE in that case). -/
def handle_dpi_changed_msg (st : WindowsWindowState) (new_dpi : Nat)
    (rect : SuggestedRect) : HandlerResult :=
  let is_maximized := st.maximized
  let new_scale_factor : ℚ := (new_dpi : ℚ) / 96
  let st' := {st with scale_factor := new_scale_factor}
  let width := rect.right - rect.left
  let height := rect.bottom - rect.top
  let effs := [Effect.setWindowPos rect.left rect.top width height]
  if is_maximized then
    let changed := handle_size_change st' width height new_scale_factor true
    ⟨changed.1, some 0, effs ++ changed.2⟩
  else ⟨st', some 0, effs⟩

/-- `handle_display_change_msg` (events.rs 966-1013).  `new_monitor` is
the `MonitorFromWindow` answer after the `ShowWindow(SW_SHOWNORMAL)`
recovery (`none` when the handle is invalid, i.e. all monitors
disconnected); `state_borrowed` is whether `try_borrow_mut` finds the
state already exclusively borrowed, in which case the display update is
skipped without blocking or retrying. -/
def handle_display_change_msg (st : WindowsWindowState) (new_monitor : Option Nat)
    (state_borrowed : Bool) : HandlerResult :=
  match new_monitor with
  | none => ⟨st, none, [Effect.showNormalForDisplayChange]⟩
  | some m =>
    if state_borrowed then ⟨st, some 0, [Effect.showNormalForDisplayChange]⟩
    else ⟨{st with display := m}, some 0, [Effect.showNormalForDisplayChange]⟩

/-!
Lock/slot discipline model (claim C1).

Each handler is abstracted to its sequence of atomic actions on the
`RefCell<WindowsWindowState>`: acquiring and dropping the exclusive
borrow (`state.borrow_mut()` and its drop), taking a callback slot's
value out, invoking the value, and restoring it.  Branch conditions in
the source (slot populated?  event produced?  callback consumed the
event?) become boolean parameters, so a trace function enumerates all
control-flow paths of its handler.  Shared reads (`state.borrow()`)
are not exclusive borrows and are not traced.
-/

/-- The callback slots of `Callbacks` plus the `input_handler` slot. -/
inductive Slot where
  | inputCb
  | resizeCb
  | movedCb
  | hoveredStatusChange
  | activeStatusChange
  | shouldClose
  | closeCb
  | appearanceChanged
  | hitTestWindowControl
  | requestFrame
  | inputHandler
deriving DecidableEq, Repr, BEq

/-- Atomic actions of a handler on the state cell and its slots. -/
inductive Action where
  | borrow
  | release
  | take (s : Slot)
  | restore (s : Slot)
  | invoke (s : Slot)
deriving DecidableEq, Repr, BEq

/-- Scans a trace keeping the current borrow depth and the multiset of
slots whose values are currently moved out; every `invoke` must happen
with the borrow depth at zero and its slot's value moved out. -/
def lockFreeMovedOutAux : Nat → List Slot → List Action → Bool
  | _, _, [] => true
  | d, taken, Action.borrow :: rest => lockFreeMovedOutAux (d + 1) taken rest
  | d, taken, Action.release :: rest => lockFreeMovedOutAux (d - 1) taken rest
  | d, taken, Action.take s :: rest => lockFreeMovedOutAux d (s :: taken) rest
  | d, taken, Action.restore s :: rest => lockFreeMovedOutAux d (taken.erase s) rest
  | d, taken, Action.invoke s :: rest =>
      d == 0 && taken.contains s && lockFreeMovedOutAux d taken rest

/-- Every callback invocation happens with no exclusive borrow held and
with the invoked value moved out of its slot. -/
def lockFreeMovedOut (tr : List Action) : Bool :=
  lockFreeMovedOutAux 0 [] tr

/-- Every invoked slot is restored later in the trace. -/
def restoredAfterInvoke : List Action → Bool
  | [] => true
  | Action.invoke s :: rest => rest.contains (Action.restore s) && restoredAfterInvoke rest
  | _ :: rest => restoredAfterInvoke rest

/-- The full discipline claimed by the spec: invocation only after the
value is moved out and the exclusive borrow released, and the slot
restored after the call returns. -/
def callbackDiscipline (tr : List Action) : Bool :=
  lockFreeMovedOut tr && restoredAfterInvoke tr

/-- Take/release/invoke/restore septet shared by most handlers: take
the slot under the borrow, drop the borrow, invoke, re-borrow to
restore. -/
def takeInvokeRestore (s : Slot) : List Action :=
  [Action.take s, Action.release, Action.invoke s, Action.borrow, Action.restore s,
   Action.release]

/-- `handle_move_msg` (events.rs 195-232): borrow; take `moved` if
present; drop; invoke; re-borrow and restore. -/
def trace_handle_move_msg (movedPresent : Bool) : List Action :=
  Action.borrow ::
    (if movedPresent then takeInvokeRestore Slot.movedCb else [Action.release])

/-- `handle_size_change` (events.rs 300-322): renderer resize happens
under the borrow (not a callback slot); the resize callback follows the
take/drop/invoke/restore pattern. -/
def trace_handle_size_change (resizePresent : Bool) : List Action :=
  Action.borrow ::
    (if resizePresent then takeInvokeRestore Slot.resizeCb else [Action.release])

/-- `handle_size_msg` (events.rs 255-298): on SIZE_MINIMIZED the
request-frame value is moved (not invoked) into the parking field under
the borrow; otherwise the parked value may be moved back, the borrow is
dropped, and `handle_size_change` runs. -/
def trace_handle_size_msg (minimized rfPresent restorePending resizePresent : Bool) :
    List Action :=
  if minimized then
    Action.borrow :: (if rfPresent then [Action.take Slot.requestFrame] else []) ++
      [Action.release]
  else
    Action.borrow ::
      (if restorePending then [Action.restore Slot.requestFrame] else []) ++
      [Action.release] ++ trace_handle_size_change resizePresent

/-- `with_input_handler` (events.rs 1478-1486): the take and the
restore each use their own temporary borrow; the closure runs in
between with no borrow held. -/
def trace_with_input_handler (ihPresent : Bool) : List Action :=
  if ihPresent then
    [Action.borrow, Action.take Slot.inputHandler, Action.release,
     Action.invoke Slot.inputHandler, Action.borrow, Action.restore Slot.inputHandler,
     Action.release]
  else [Action.borrow, Action.release]

/-- `with_input_handler_and_scale_factor` (events.rs 1488-1499): same
discipline with an explicit borrow dropped before the call. -/
def trace_with_input_handler_and_scale_factor (ihPresent : Bool) : List Action :=
  if ihPresent then
    [Action.borrow, Action.take Slot.inputHandler, Action.release,
     Action.invoke Slot.inputHandler, Action.borrow, Action.restore Slot.inputHandler,
     Action.release]
  else [Action.borrow, Action.release]

/-- `start_tracking_mouse` (events.rs 1455-1476). -/
def trace_start_tracking_mouse (hovered hoverPresent : Bool) : List Action :=
  if hovered then [Action.borrow, Action.release]
  else
    Action.borrow ::
      (if hoverPresent then takeInvokeRestore Slot.hoveredStatusChange
       else [Action.release])

/-- `handle_mouse_move_msg` (events.rs 410-447). -/
def trace_handle_mouse_move_msg (hovered hoverPresent inputPresent : Bool) :
    List Action :=
  trace_start_tracking_mouse hovered hoverPresent ++
    Action.borrow ::
      (if inputPresent then takeInvokeRestore Slot.inputCb else [Action.release])

/-- `handle_mouse_leave_msg` (events.rs 449-459). -/
def trace_handle_mouse_leave_msg (hoverPresent : Bool) : List Action :=
  Action.borrow ::
    (if hoverPresent then takeInvokeRestore Slot.hoveredStatusChange
     else [Action.release])

/-- `handle_syskeydown_msg` (events.rs 461-485): `handle_key_event`
mutates state under the borrow; the input callback is taken under the
same borrow and invoked after dropping it; `system_key_handled` is set
under the restoring borrow. -/
def trace_handle_syskeydown_msg (eventProduced inputPresent : Bool) : List Action :=
  Action.borrow ::
    (if eventProduced then
      (if inputPresent then takeInvokeRestore Slot.inputCb else [Action.release])
     else [Action.release])

/-- `handle_syskeyup_msg` (events.rs 487-499). -/
def trace_handle_syskeyup_msg (eventProduced inputPresent : Bool) : List Action :=
  Action.borrow ::
    (if eventProduced then
      (if inputPresent then takeInvokeRestore Slot.inputCb else [Action.release])
     else [Action.release])

/-- `handle_keydown_msg` (events.rs 503-538): the key event is built
under a borrow that is dropped; the composing check runs through
`with_input_handler`; then the input callback is taken with a
temporary borrow, invoked, and restored with another. -/
def trace_handle_keydown_msg (eventProduced ihPresent composing inputPresent : Bool) :
    List Action :=
  if eventProduced then
    [Action.borrow, Action.release] ++ trace_with_input_handler ihPresent ++
      (if ihPresent && composing then []
       else if inputPresent then
         [Action.borrow, Action.take Slot.inputCb, Action.release,
          Action.invoke Slot.inputCb, Action.borrow, Action.restore Slot.inputCb,
          Action.release]
       else [Action.borrow, Action.release])
  else [Action.borrow, Action.release]

/-- `handle_keyup_msg` (events.rs 540-557). -/
def trace_handle_keyup_msg (eventProduced inputPresent : Bool) : List Action :=
  Action.borrow ::
    (if eventProduced then
      (if inputPresent then takeInvokeRestore Slot.inputCb else [Action.release])
     else [Action.release])

/-- `handle_char_msg` (events.rs 559-566): `parse_char_message` holds
its own borrow; text insertion goes through `with_input_handler`. -/
def trace_handle_char_msg (textProduced ihPresent : Bool) : List Action :=
  [Action.borrow, Action.release] ++
    (if textProduced then trace_with_input_handler ihPresent else [])

/-- `handle_dead_char_msg` (events.rs 568-574). -/
def trace_handle_dead_char_msg (validChar ihPresent : Bool) : List Action :=
  if validChar then trace_with_input_handler ihPresent else []

/-- `handle_mouse_down_msg` (events.rs 576-609). -/
def trace_handle_mouse_down_msg (inputPresent : Bool) : List Action :=
  Action.borrow ::
    (if inputPresent then takeInvokeRestore Slot.inputCb else [Action.release])

/-- `handle_mouse_up_msg` (events.rs 611-638). -/
def trace_handle_mouse_up_msg (inputPresent : Bool) : List Action :=
  Action.borrow ::
    (if inputPresent then takeInvokeRestore Slot.inputCb else [Action.release])

/-- `handle_mouse_wheel_msg` (events.rs 655-699). -/
def trace_handle_mouse_wheel_msg (inputPresent : Bool) : List Action :=
  Action.borrow ::
    (if inputPresent then takeInvokeRestore Slot.inputCb else [Action.release])

/-- `handle_mouse_horizontal_wheel_msg` (events.rs 701-735). -/
def trace_handle_mouse_horizontal_wheel_msg (inputPresent : Bool) : List Action :=
  Action.borrow ::
    (if inputPresent then takeInvokeRestore Slot.inputCb else [Action.release])

/-- `handle_ime_position` via `retrieve_caret_position`
(events.rs 737-776). -/
def trace_handle_ime_position (ihPresent : Bool) : List Action :=
  trace_with_input_handler_and_scale_factor ihPresent

/-- `handle_ime_composition_inner` (events.rs 785-817): a sequence of
`with_input_handler` calls with early returns on parse failure or a
missing handler. -/
def trace_handle_ime_composition_msg
    (lparamZero hasComp compOk hasResult resultOk ihPresent : Bool) : List Action :=
  if lparamZero then trace_with_input_handler ihPresent
  else if hasComp && !compOk then []
  else
    (if hasComp then trace_with_input_handler ihPresent else []) ++
      (if hasComp && !ihPresent then []
       else if hasResult && !resultOk then []
       else if hasResult then trace_with_input_handler ihPresent
       else [])

/-- `handle_close_msg` (events.rs 372-385): take with a temporary
borrow, invoke, restore with another. -/
def trace_handle_close_msg (shouldClosePresent : Bool) : List Action :=
  if shouldClosePresent then
    [Action.borrow, Action.take Slot.shouldClose, Action.release,
     Action.invoke Slot.shouldClose, Action.borrow, Action.restore Slot.shouldClose,
     Action.release]
  else [Action.borrow, Action.release]

/-- `handle_destroy_msg` (events.rs 387-408): the close callback is
taken and invoked after the borrow is dropped, but never restored —
the window is being destroyed. -/
def trace_handle_destroy_msg (closePresent : Bool) : List Action :=
  if closePresent then
    [Action.borrow, Action.take Slot.closeCb, Action.release, Action.invoke Slot.closeCb]
  else [Action.borrow, Action.release]

/-- `handle_activate_msg` (events.rs 873-888): the spawned task uses
the standard take/drop/invoke/restore pattern. -/
def trace_handle_activate_msg (activePresent : Bool) : List Action :=
  Action.borrow ::
    (if activePresent then takeInvokeRestore Slot.activeStatusChange
     else [Action.release])

/-- `handle_hit_test_msg` (events.rs 1015-1082): only the
hit-test-for-chrome callback touches a slot; the later reads use shared
borrows. -/
def trace_handle_hit_test_msg (hitTestPresent : Bool) : List Action :=
  Action.borrow ::
    (if hitTestPresent then takeInvokeRestore Slot.hitTestWindowControl
     else [Action.release])

/-- `handle_nc_mouse_move_msg` (events.rs 1084-1106). -/
def trace_handle_nc_mouse_move_msg (inputPresent : Bool) : List Action :=
  Action.borrow ::
    (if inputPresent then takeInvokeRestore Slot.inputCb else [Action.release])

/-- `handle_nc_mouse_down_msg` (events.rs 1108-1157): the optional
arming tail writes `nc_button_pressed` under a fresh temporary
borrow. -/
def trace_handle_nc_mouse_down_msg (inputPresent handled armButton : Bool) :
    List Action :=
  (Action.borrow ::
    (if inputPresent then takeInvokeRestore Slot.inputCb else [Action.release])) ++
    (if inputPresent && handled then []
     else if armButton then [Action.borrow, Action.release] else [])

/-- `handle_nc_mouse_up_msg` (events.rs 1159-1224): the
`nc_button_pressed.take()` tail uses a fresh temporary borrow. -/
def trace_handle_nc_mouse_up_msg (inputPresent handled : Bool) : List Action :=
  (Action.borrow ::
    (if inputPresent then takeInvokeRestore Slot.inputCb else [Action.release])) ++
    (if inputPresent && handled then [] else [Action.borrow, Action.release])

/-- `handle_system_theme_changed` (events.rs 1343-1367): on an actual
appearance change the callback is taken under the borrow, invoked after
dropping it, and restored. -/
def trace_handle_system_theme_changed_msg (changed appearancePresent : Bool) :
    List Action :=
  Action.borrow ::
    (if changed then
      (if appearancePresent then takeInvokeRestore Slot.appearanceChanged
       else [Action.release])
     else [Action.release])

/-- `draw_window` (events.rs 1412-1421): request-frame callback taken
with a temporary borrow, invoked, restored with another. -/
def trace_draw_window (rfPresent : Bool) : List Action :=
  if rfPresent then
    [Action.borrow, Action.take Slot.requestFrame, Action.release,
     Action.invoke Slot.requestFrame, Action.borrow, Action.restore Slot.requestFrame,
     Action.release]
  else [Action.borrow, Action.release]

/-!  Shared concrete states for witnesses and counterexamples. -/

/-- A modifier snapshot with nothing held. -/
def noMods : Modifiers :=
  ⟨false, false, false, false, false⟩

/-- A baseline window state: unit scale factor, no callbacks consuming
events, all bookkeeping fields at rest. -/
def plainState : WindowsWindowState where
  scale_factor := 1
  logical_size := (800, 600)
  maximized := false
  pending_surrogate := none
  last_reported_modifiers := none
  last_reported_capslock := none
  nc_button_pressed := none
  click_state_current_count := 1
  display := 1
  hovered := true
  callbacks_input := none
  callbacks_resize := some 0
  callbacks_request_frame := some 0
  restore_from_minimized := none
  input_handler := true
  wheel_scroll_lines := 3
  wheel_scroll_chars := 3

/-- `plainState` with an input callback that consumes every event
(`propagate = false`). -/
def consumingState : WindowsWindowState :=
  {plainState with callbacks_input := some (fun _ => ⟨false, false⟩)}

/-- `plainState` with an input callback that lets every event propagate
and never prevents default handling. -/
def propagatingState : WindowsWindowState :=
  {plainState with callbacks_input := some (fun _ => ⟨true, false⟩)}

/-- Claim C1 (counterexample): the destroy handler invokes the `close`
callback after taking it and dropping the borrow, but never restores
the slot, so the full take/release/invoke/restore discipline claimed
for every handler and every slot fails on `handle_destroy_msg` with a
registered close callback. -/
theorem c1_destroy_close_not_restored :
    callbackDiscipline (trace_handle_destroy_msg true) = false := by decide

/-- Claim C1 (amended): for every message handler, on every control
path, each callback is invoked only after its value has been moved out
of its slot and every exclusive state borrow has been released, and the
slot is restored after the call returns — except the `close` callback
in the destroy handler, which is deliberately consumed (the window is
going away); even there the invocation happens with the value moved out
and no borrow held. -/
theorem c1_callback_invocation_discipline :
    (∀ a : Bool, callbackDiscipline (trace_handle_move_msg a) = true)
    ∧ (∀ a : Bool, callbackDiscipline (trace_handle_size_change a) = true)
    ∧ (∀ a b c d : Bool, callbackDiscipline (trace_handle_size_msg a b c d) = true)
    ∧ (∀ a : Bool, callbackDiscipline (trace_with_input_handler a) = true)
    ∧ (∀ a : Bool, callbackDiscipline (trace_with_input_handler_and_scale_factor a) = true)
    ∧ (∀ a b : Bool, callbackDiscipline (trace_start_tracking_mouse a b) = true)
    ∧ (∀ a b c : Bool, callbackDiscipline (trace_handle_mouse_move_msg a b c) = true)
    ∧ (∀ a : Bool, callbackDiscipline (trace_handle_mouse_leave_msg a) = true)
    ∧ (∀ a b : Bool, callbackDiscipline (trace_handle_syskeydown_msg a b) = true)
    ∧ (∀ a b : Bool, callbackDiscipline (trace_handle_syskeyup_msg a b) = true)
    ∧ (∀ a b c d : Bool, callbackDiscipline (trace_handle_keydown_msg a b c d) = true)
    ∧ (∀ a b : Bool, callbackDiscipline (trace_handle_keyup_msg a b) = true)
    ∧ (∀ a b : Bool, callbackDiscipline (trace_handle_char_msg a b) = true)
    ∧ (∀ a b : Bool, callbackDiscipline (trace_handle_dead_char_msg a b) = true)
    ∧ (∀ a : Bool, callbackDiscipline (trace_handle_mouse_down_msg a) = true)
    ∧ (∀ a : Bool, callbackDiscipline (trace_handle_mouse_up_msg a) = true)
    ∧ (∀ a : Bool, callbackDiscipline (trace_handle_mouse_wheel_msg a) = true)
    ∧ (∀ a : Bool, callbackDiscipline (trace_handle_mouse_horizontal_wheel_msg a) = true)
    ∧ (∀ a : Bool, callbackDiscipline (trace_handle_ime_position a) = true)
    ∧ (∀ a b c d e f : Bool,
        callbackDiscipline (trace_handle_ime_composition_msg a b c d e f) = true)
    ∧ (∀ a : Bool, callbackDiscipline (trace_handle_close_msg a) = true)
    ∧ (∀ a : Bool, lockFreeMovedOut (trace_handle_destroy_msg a) = true)
    ∧ (∀ a : Bool, callbackDiscipline (trace_handle_activate_msg a) = true)
    ∧ (∀ a : Bool, callbackDiscipline (trace_handle_hit_test_msg a) = true)
    ∧ (∀ a : Bool, callbackDiscipline (trace_handle_nc_mouse_move_msg a) = true)
    ∧ (∀ a b c : Bool, callbackDiscipline (trace_handle_nc_mouse_down_msg a b c) = true)
    ∧ (∀ a b : Bool, callbackDiscipline (trace_handle_nc_mouse_up_msg a b) = true)
    ∧ (∀ a b : Bool,
        callbackDiscipline (trace_handle_system_theme_changed_msg a b) = true)
    ∧ (∀ a : Bool, callbackDiscipline (trace_draw_window a) = true) := by
  decide

/-- Claim C2: `parse_char_message` buffers a high-surrogate code unit
(overwriting any previous one) and produces no text; a low-surrogate
unit combines with a buffered high surrogate into exactly one character
and clears the slot, and produces nothing when no high surrogate is
buffered; any other code unit clears the slot and yields the single
decoded character unless it is a control character.  The slot left
behind is always empty or a single high-surrogate unit. -/
theorem c2_parse_char_message_spec (st : WindowsWindowState) (cp : Nat) :
    (0xD800 ≤ cp → cp ≤ 0xDBFF →
      parse_char_message st cp = ({st with pending_surrogate := some cp}, none))
    ∧ (0xDC00 ≤ cp → cp ≤ 0xDFFF →
        (∀ h, st.pending_surrogate = some h → 0xD800 ≤ h → h ≤ 0xDBFF →
          parse_char_message st cp =
            ({st with pending_surrogate := none},
             some [0x10000 + (h - 0xD800) * 0x400 + (cp - 0xDC00)]))
        ∧ (st.pending_surrogate = none →
            parse_char_message st cp = ({st with pending_surrogate := none}, none)))
    ∧ (¬(0xD800 ≤ cp ∧ cp ≤ 0xDFFF) → cp < 0x10000 →
        (parse_char_message st cp).1 = {st with pending_surrogate := none}
        ∧ (parse_char_message st cp).2 =
            (if is_control cp then none else some [cp]))
    ∧ ((parse_char_message st cp).1.pending_surrogate = none
       ∨ ((parse_char_message st cp).1.pending_surrogate = some cp
          ∧ 0xD800 ≤ cp ∧ cp ≤ 0xDBFF)) := by
  refine ⟨?_, fun h1 h2 => ⟨?_, ?_⟩, ?_, ?_⟩
  · intro h1 h2
    unfold parse_char_message
    rw [if_pos ⟨h1, h2⟩]
  · intro h hp hh1 hh2
    unfold parse_char_message
    rw [if_neg (by omega), if_pos ⟨h1, h2⟩, hp]
    dsimp only
    unfold from_utf16_pair
    rw [if_pos ⟨hh1, hh2, h1, h2⟩]
  · intro hp
    unfold parse_char_message
    rw [if_neg (by omega), if_pos ⟨h1, h2⟩, hp]
  · intro hns hlt
    unfold parse_char_message
    rw [if_neg (by omega), if_neg (by omega)]
    refine ⟨rfl, ?_⟩
    unfold char_from_u32
    rw [if_pos ⟨by omega, by omega⟩]
    cases hc : is_control cp <;> simp [Option.filter, hc]
  · by_cases h1 : 0xD800 ≤ cp ∧ cp ≤ 0xDBFF
    · right
      unfold parse_char_message
      rw [if_pos h1]
      exact ⟨rfl, h1⟩
    · left
      unfold parse_char_message
      rw [if_neg h1]
      by_cases h2 : 0xDC00 ≤ cp ∧ cp ≤ 0xDFFF
      · rw [if_pos h2]
        cases st.pending_surrogate <;> rfl
      · rw [if_neg h2]

/-- Witness for C2: a buffered high surrogate 0xD801 followed by the
low surrogate 0xDC05 yields exactly one combined character and clears
the slot. -/
theorem c2_parse_char_message_spec_witness :
    parse_char_message {plainState with pending_surrogate := some 0xD801} 0xDC05 =
      ({{plainState with pending_surrogate := some 0xD801} with pending_surrogate := none},
       some [0x10000 + (0xD801 - 0xD800) * 0x400 + (0xDC05 - 0xDC00)]) :=
  ((c2_parse_char_message_spec {plainState with pending_surrogate := some 0xD801}
      0xDC05).2.1 (by decide) (by decide)).1 0xD801 rfl (by decide) (by decide)

/-- Claim C3: on a modifier key (shift/control/alt/platform), a
modifiers-changed event is produced iff the live snapshot differs from
the stored last-reported one (including when nothing was reported yet);
on equality nothing is produced and the state is unchanged.  The same
debouncing holds independently for the caps-lock key against the
last-reported caps-lock state. -/
theorem c3_modifier_debounce_spec (st : WindowsWindowState) (mods : Modifiers)
    (caps : Capslock) (f : Keystroke → PlatformInput) :
    ((handle_key_event st mods caps VKeyMsg.modifierKey f).2.isSome ↔
        st.last_reported_modifiers ≠ some mods)
    ∧ (st.last_reported_modifiers = some mods →
        handle_key_event st mods caps VKeyMsg.modifierKey f = (st, none))
    ∧ (st.last_reported_modifiers ≠ some mods →
        handle_key_event st mods caps VKeyMsg.modifierKey f =
          ({st with last_reported_modifiers := some mods},
           some (PlatformInput.modifiersChanged mods caps)))
    ∧ ((handle_key_event st mods caps VKeyMsg.capital f).2.isSome ↔
        st.last_reported_capslock ≠ some caps)
    ∧ (st.last_reported_capslock = some caps →
        handle_key_event st mods caps VKeyMsg.capital f = (st, none))
    ∧ (st.last_reported_capslock ≠ some caps →
        handle_key_event st mods caps VKeyMsg.capital f =
          ({st with last_reported_capslock := some caps},
           some (PlatformInput.modifiersChanged mods caps))) := by
  unfold handle_key_event
  by_cases hm : st.last_reported_modifiers = some mods <;>
    by_cases hc : st.last_reported_capslock = some caps <;>
      simp [hm, hc]

/-- Witness for C3: from a state with no previously reported snapshot,
a modifier-key message produces the modifiers-changed event and stores
the snapshot. -/
theorem c3_modifier_debounce_spec_witness :
    handle_key_event plainState noMods ⟨false⟩ VKeyMsg.modifierKey
        (fun ks => PlatformInput.keyUp ks) =
      ({plainState with last_reported_modifiers := some noMods},
       some (PlatformInput.modifiersChanged noMods ⟨false⟩)) :=
  (c3_modifier_debounce_spec plainState noMods ⟨false⟩
      (fun ks => PlatformInput.keyUp ks)).2.2.1 (by decide)

/-- Selects the replace-and-mark mutations of a mutation list. -/
def isReplaceAndMark : TextMutation → Bool
  | TextMutation.replaceAndMark _ _ => true
  | _ => false

/-- Selects the plain replace-text mutations of a mutation list. -/
def isReplaceText : TextMutation → Bool
  | TextMutation.replaceText _ => true
  | _ => false

/-- Claim C4: for a composition-update with a non-zero flag word and a
registered input handler — if the payload carries a composition string,
exactly one replace-and-mark call is made with that string, a
zero-length caret selection attached only when the string is non-empty
and a caret position is carried; if it carries a result string (and the
composition part, when present, parsed), exactly one replace-text call
commits it and the handler returns a handled result; with neither
payload nothing is mutated and the handler returns not-handled. -/
theorem c4_ime_composition_spec (st : WindowsWindowState) (lparam : Nat)
    (comp_string result_string : Option (List Nat)) (cursor_pos : Nat)
    (hih : st.input_handler = true) (hlp : ¬lparam = 0) :
    (∀ s, lparam &&& GCS_COMPSTR ≠ 0 → comp_string = some s →
      ((handle_ime_composition_inner st lparam comp_string result_string
          cursor_pos).1.filter isReplaceAndMark)
        = [TextMutation.replaceAndMark s
            (if s ≠ [] ∧ lparam &&& GCS_CURSORPOS ≠ 0 then
              some (cursor_pos, cursor_pos) else none)])
    ∧ (∀ r, lparam &&& GCS_RESULTSTR ≠ 0 → result_string = some r →
        (lparam &&& GCS_COMPSTR = 0 ∨ ∃ s, comp_string = some s) →
        ((handle_ime_composition_inner st lparam comp_string result_string
            cursor_pos).1.filter isReplaceText) = [TextMutation.replaceText r]
        ∧ (handle_ime_composition_inner st lparam comp_string result_string
            cursor_pos).2 = some 0)
    ∧ (lparam &&& GCS_COMPSTR = 0 → lparam &&& GCS_RESULTSTR = 0 →
        handle_ime_composition_inner st lparam comp_string result_string cursor_pos
          = ([], none)) := by
  refine ⟨?_, ?_, ?_⟩
  · intro s h8 hcs
    unfold handle_ime_composition_inner
    rw [if_neg hlp, if_pos h8, hcs]
    dsimp only
    rw [hih]
    by_cases h11 : lparam &&& GCS_RESULTSTR ≠ 0
    · rw [if_pos rfl, if_pos h11]
      cases result_string <;>
        simp [List.filter, isReplaceAndMark, isReplaceText]
    · rw [if_pos rfl, if_neg h11]
      simp [List.filter, isReplaceAndMark]
  · intro r h11 hrs hcomp
    unfold handle_ime_composition_inner
    rw [if_neg hlp]
    by_cases h8 : lparam &&& GCS_COMPSTR = 0
    · rw [if_neg (not_not_intro h8), if_pos h11, hrs]
      dsimp only
      rw [hih, if_pos rfl]
      simp [List.filter, isReplaceText]
    · rcases hcomp with h0 | ⟨s, hs⟩
      · exact absurd h0 h8
      · rw [if_pos h8, hs]
        dsimp only
        rw [hih, if_pos rfl, if_pos h11, hrs]
        dsimp only
        simp [List.filter, isReplaceText, isReplaceAndMark]
  · intro h8 h11
    unfold handle_ime_composition_inner
    rw [if_neg hlp, if_neg (not_not_intro h8), if_neg (not_not_intro h11)]

/-- Witness for C4: flag word GCS_COMPSTR ||| GCS_CURSORPOS ||| GCS_RESULTSTR
with composition string [0x3B7], result string [0x3B7, 0x3BC] and caret 1:
one replace-and-mark with caret 1..1, one committing replace-text,
result handled. -/
theorem c4_ime_composition_spec_witness :
    ((handle_ime_composition_inner plainState 2184 (some [0x3B7])
        (some [0x3B7, 0x3BC]) 1).1.filter isReplaceAndMark)
      = [TextMutation.replaceAndMark [0x3B7]
          (if ([0x3B7] : List Nat) ≠ [] ∧ 2184 &&& GCS_CURSORPOS ≠ 0 then
            some (1, 1) else none)]
    ∧ ((handle_ime_composition_inner plainState 2184 (some [0x3B7])
        (some [0x3B7, 0x3BC]) 1).1.filter isReplaceText)
      = [TextMutation.replaceText [0x3B7, 0x3BC]]
    ∧ (handle_ime_composition_inner plainState 2184 (some [0x3B7])
        (some [0x3B7, 0x3BC]) 1).2 = some 0 := by
  have h := c4_ime_composition_spec plainState 2184 (some [0x3B7])
    (some [0x3B7, 0x3BC]) 1 rfl (by decide)
  exact ⟨h.1 [0x3B7] (by decide) rfl,
         (h.2.1 [0x3B7, 0x3BC] (by decide) rfl (Or.inr ⟨[0x3B7], rfl⟩)).1,
         (h.2.1 [0x3B7, 0x3BC] (by decide) rfl (Or.inr ⟨[0x3B7], rfl⟩)).2⟩

/-- Claim C5: on WM_DPICHANGED the stored scale factor becomes
new-DPI / 96, a reposition request to the OS-suggested rectangle is
issued, and the resize-callback path (logical size update, renderer
resize, resize callback at the new scale) runs synchronously iff the
window is maximized; a non-maximized window gets no renderer resize
and no resize callback from this handler. -/
theorem c5_dpi_changed_spec (st : WindowsWindowState) (new_dpi : Nat)
    (rect : SuggestedRect) :
    (handle_dpi_changed_msg st new_dpi rect).state.scale_factor = (new_dpi : ℚ) / 96
    ∧ Effect.setWindowPos rect.left rect.top (rect.right - rect.left)
        (rect.bottom - rect.top) ∈ (handle_dpi_changed_msg st new_dpi rect).effects
    ∧ (st.maximized = true →
        (handle_dpi_changed_msg st new_dpi rect).state.logical_size
          = (((rect.right - rect.left : Int) : ℚ) / ((new_dpi : ℚ) / 96),
             ((rect.bottom - rect.top : Int) : ℚ) / ((new_dpi : ℚ) / 96))
        ∧ Effect.rendererResize (rect.right - rect.left) (rect.bottom - rect.top)
            ∈ (handle_dpi_changed_msg st new_dpi rect).effects
        ∧ (∀ cb, st.callbacks_resize = some cb →
            Effect.resizeCallback
              (((rect.right - rect.left : Int) : ℚ) / ((new_dpi : ℚ) / 96),
               ((rect.bottom - rect.top : Int) : ℚ) / ((new_dpi : ℚ) / 96))
              ((new_dpi : ℚ) / 96)
              ∈ (handle_dpi_changed_msg st new_dpi rect).effects))
    ∧ (st.maximized = false →
        (handle_dpi_changed_msg st new_dpi rect).state.logical_size = st.logical_size
        ∧ ∀ e ∈ (handle_dpi_changed_msg st new_dpi rect).effects,
            (∀ a b, e ≠ Effect.rendererResize a b)
            ∧ (∀ sz sc, e ≠ Effect.resizeCallback sz sc)) := by
  unfold handle_dpi_changed_msg handle_size_change
  cases hm : st.maximized
  · refine ⟨by simp, by simp, by simp, fun _ => ⟨by simp, ?_⟩⟩
    intro e he
    simp at he
    subst he
    constructor
    · intro a b h
      simp at h
    · intro sz sc h
      simp at h
  · cases hcr : st.callbacks_resize with
    | none =>
      refine ⟨by simp, by simp [hcr], fun _ => ⟨by simp [hcr], by simp [hcr], ?_⟩,
        by simp⟩
      intro cb hcb
      exact absurd hcb (by simp)
    | some cb0 =>
      exact ⟨by simp, by simp [hcr], fun _ => ⟨by simp [hcr], by simp [hcr],
        fun cb hcb => by simp [hcr]⟩, by simp⟩

/-- Witness for C5: a non-maximized window at scale 1 receiving DPI 144
with suggested rectangle (0,0,100,50): the scale factor becomes
144/96 = 1.5, the reposition request is issued, and no renderer resize
or resize callback fires from this handler. -/
theorem c5_dpi_changed_spec_witness :
    (handle_dpi_changed_msg plainState 144 ⟨0, 0, 100, 50⟩).state.scale_factor
      = (144 : ℚ) / 96
    ∧ Effect.setWindowPos 0 0 (100 - 0) (50 - 0)
        ∈ (handle_dpi_changed_msg plainState 144 ⟨0, 0, 100, 50⟩).effects
    ∧ (handle_dpi_changed_msg plainState 144 ⟨0, 0, 100, 50⟩).state.logical_size
        = plainState.logical_size
    ∧ ∀ e ∈ (handle_dpi_changed_msg plainState 144 ⟨0, 0, 100, 50⟩).effects,
        (∀ a b, e ≠ Effect.rendererResize a b)
        ∧ (∀ sz sc, e ≠ Effect.resizeCallback sz sc) := by
  have h := c5_dpi_changed_spec plainState 144 ⟨0, 0, 100, 50⟩
  exact ⟨h.1, h.2.1, (h.2.2.2 rfl).1, (h.2.2.2 rfl).2⟩

/-- Claim C8: a SIZE_MINIMIZED message parks the request-frame callback
in the restore-on-un-minimize slot and returns immediately — no
renderer resize, no logical-size change, no resize callback, and no
other state field touched; the next non-minimized size message puts the
parked callback back verbatim, empties the parking slot, and skips the
renderer resize for that restore. -/
theorem c8_minimize_parking_spec (st : WindowsWindowState) (lw lh : Nat) :
    (handle_size_msg st 1 lw lh).state
        = {st with restore_from_minimized := st.callbacks_request_frame,
                   callbacks_request_frame := none}
    ∧ (handle_size_msg st 1 lw lh).result = some 0
    ∧ (handle_size_msg st 1 lw lh).effects = []
    ∧ (∀ w, w ≠ 1 → ∀ cb, st.restore_from_minimized = some cb →
        (handle_size_msg st w lw lh).state.callbacks_request_frame = some cb
        ∧ (handle_size_msg st w lw lh).state.restore_from_minimized = none
        ∧ ∀ e ∈ (handle_size_msg st w lw lh).effects,
            ∀ a b, e ≠ Effect.rendererResize a b) := by
  refine ⟨by simp [handle_size_msg], by simp [handle_size_msg],
    by simp [handle_size_msg], ?_⟩
  intro w hw cb hcb
  unfold handle_size_msg handle_size_change
  rw [if_neg hw, hcb]
  dsimp only
  cases hcr : st.callbacks_resize <;> simp [hcr]

/-- Witness for C8: with the request-frame callback parked as token 7,
a restored (non-minimized) size message moves it back verbatim, clears
the parking slot, and performs no renderer resize; parking itself on a
minimize message is exercised directly on `plainState`. -/
theorem c8_minimize_parking_spec_witness :
    (handle_size_msg {plainState with restore_from_minimized := some 7} 0 640 480).state.callbacks_request_frame
        = some 7
    ∧ (handle_size_msg {plainState with restore_from_minimized := some 7} 0 640 480).state.restore_from_minimized
        = none
    ∧ ∀ e ∈ (handle_size_msg {plainState with restore_from_minimized := some 7} 0 640 480).effects,
        ∀ a b, e ≠ Effect.rendererResize a b :=
  (c8_minimize_parking_spec {plainState with restore_from_minimized := some 7}
    640 480).2.2.2 0 (by decide) 7 rfl

/-- Claim C9: the display-topology-change handler updates the stored
display reference only through the non-blocking access path — under
contention the update is skipped and the state is left exactly at its
prior value; when no monitor resolves, no state update happens at
all. -/
theorem c9_display_change_spec (st : WindowsWindowState) (new_monitor : Option Nat)
    (state_borrowed : Bool) :
    ((new_monitor = none →
        handle_display_change_msg st new_monitor state_borrowed
          = ⟨st, none, [Effect.showNormalForDisplayChange]⟩)
    ∧ (∀ m, new_monitor = some m → state_borrowed = true →
        handle_display_change_msg st new_monitor state_borrowed
          = ⟨st, some 0, [Effect.showNormalForDisplayChange]⟩)
    ∧ (∀ m, new_monitor = some m → state_borrowed = false →
        handle_display_change_msg st new_monitor state_borrowed
          = ⟨{st with display := m}, some 0, [Effect.showNormalForDisplayChange]⟩)) := by
  refine ⟨?_, ?_, ?_⟩
  · intro h
    rw [h]
    rfl
  · intro m hm hb
    rw [hm, hb]
    rfl
  · intro m hm hb
    rw [hm, hb]
    rfl

/-- Witness for C9: under simulated contention (an in-progress borrow),
a display change with a resolvable monitor leaves the entire window
state at its prior value. -/
theorem c9_display_change_spec_witness :
    handle_display_change_msg plainState (some 2) true
      = ⟨plainState, some 0, [Effect.showNormalForDisplayChange]⟩ :=
  (c9_display_change_spec plainState (some 2) true).2.1 2 rfl rfl

/-- The button-action tail of the non-client mouse-up handler only ever
appends non-input effects to the effects accumulated so far. -/
theorem nc_up_action_appends_no_input (st : WindowsWindowState) (button : MouseButton)
    (wparam : Nat) (effs : List Effect) :
    ∃ tail, (handle_nc_mouse_up_action st button wparam effs).effects = effs ++ tail
      ∧ ∀ e ∈ tail, ∀ pi, e ≠ Effect.inputEvent pi := by
  unfold handle_nc_mouse_up_action
  by_cases hb : button = MouseButton.left
  · rw [if_pos hb]
    cases st.nc_button_pressed with
    | none => exact ⟨[], by simp, by simp⟩
    | some lp =>
      dsimp only
      by_cases h1 : wparam = HTMINBUTTON ∧ lp = HTMINBUTTON
      · rw [if_pos h1]
        exact ⟨[Effect.minimizeWindow], rfl, by simp⟩
      · rw [if_neg h1]
        by_cases h2 : wparam = HTMAXBUTTON ∧ lp = HTMAXBUTTON
        · rw [if_pos h2]
          refine ⟨[if st.maximized then Effect.showNormalWindow else Effect.maximizeWindow],
            rfl, ?_⟩
          intro e he pi
          cases hst : st.maximized <;> simp [hst] at he <;> subst he <;> simp
        · rw [if_neg h2]
          by_cases h3 : wparam = HTCLOSE ∧ lp = HTCLOSE
          · rw [if_pos h3]
            exact ⟨[Effect.postCloseMessage], rfl, by simp⟩
          · rw [if_neg h3]
            exact ⟨[], by simp, by simp⟩
  · rw [if_neg hb]
    exact ⟨[], by simp, by simp⟩

/-- Claim C10: a non-client mouse-up delivered to the input callback
always carries click count 1, while a client-area mouse-up reports the
click classifier's stored running count. -/
theorem c10_click_count_spec (st : WindowsWindowState) (button : MouseButton)
    (wparam : Nat) (client : Int × Int) (x y : Int) (mods : Modifiers)
    (f : PlatformInput → DispatchResult) (hf : st.callbacks_input = some f) :
    (∀ e ∈ (handle_nc_mouse_up_msg st button wparam client mods).effects,
      ∀ b p m c, e = Effect.inputEvent (PlatformInput.mouseUp b p m c) → c = 1)
    ∧ (handle_mouse_up_msg st button x y mods).effects
      = [Effect.inputEvent (PlatformInput.mouseUp button
          (logical_point x y st.scale_factor) mods st.click_state_current_count)] := by
  constructor
  · unfold handle_nc_mouse_up_msg
    rw [hf]
    dsimp only
    cases hprop : (f (PlatformInput.mouseUp button
        (logical_point client.1 client.2 st.scale_factor) mods 1)).propagate
    · rw [if_pos (by decide)]
      intro e he b p m c hec
      simp only [List.mem_singleton] at he
      subst he
      injection hec with h1
      injection h1 with hb hp hm hc
      omega
    · rw [if_neg (by decide)]
      obtain ⟨tail, htail, hni⟩ := nc_up_action_appends_no_input st button wparam
        [Effect.inputEvent (PlatformInput.mouseUp button
          (logical_point client.1 client.2 st.scale_factor) mods 1)]
      rw [htail]
      intro e he b p m c hec
      rcases List.mem_append.mp he with h | h
      · simp only [List.mem_singleton] at h
        subst h
        injection hec with h1
        injection h1 with hb hp hm hc
        omega
      · exact absurd hec (hni e h (PlatformInput.mouseUp b p m c))
  · unfold handle_mouse_up_msg
    rw [hf]
    dsimp only
    cases hprop : (f (PlatformInput.mouseUp button
        (logical_point x y st.scale_factor) mods st.click_state_current_count)).propagate
    · rw [if_pos (by decide)]
    · rw [if_neg (by decide)]

/-- Witness for C10: with a propagating input callback registered and a
stored running count of 1, a client-area left mouse-up reports exactly
the classifier's stored running count. -/
theorem c10_click_count_spec_witness :
    (handle_mouse_up_msg propagatingState MouseButton.left 10 20 noMods).effects
      = [Effect.inputEvent (PlatformInput.mouseUp MouseButton.left
          (logical_point 10 20 propagatingState.scale_factor) noMods
          propagatingState.click_state_current_count)] :=
  (c10_click_count_spec propagatingState MouseButton.left 0 (0, 0) 10 20 noMods
    (fun _ => ⟨true, false⟩) rfl).2

/-- Hypothesis for the chrome-button protocol: the registered input
callback, if any, lets every event propagate and never prevents
default handling. -/
def inputDoesNotConsume (st : WindowsWindowState) : Prop :=
  ∀ f, st.callbacks_input = some f →
    ∀ e, (f e).propagate = true ∧ (f e).default_prevented = false

/-- Selects the chrome-button actions among effects. -/
def isChromeAction : Effect → Bool
  | Effect.minimizeWindow => true
  | Effect.showNormalWindow => true
  | Effect.maximizeWindow => true
  | Effect.postCloseMessage => true
  | _ => false

/-- Under a non-consuming input callback the non-client mouse-down
handler always reaches the arming tail, having accumulated no
chrome-action effects. -/
theorem nc_down_reduces (st : WindowsWindowState) (button : MouseButton)
    (wparam : Nat) (client : Int × Int) (mods : Modifiers) (click_count : Nat)
    (hnc : inputDoesNotConsume st) :
    ∃ st₀ effs, handle_nc_mouse_down_msg st button wparam client mods click_count
        = handle_nc_mouse_down_arm st₀ button wparam effs
      ∧ st₀.nc_button_pressed = st.nc_button_pressed
      ∧ ∀ e ∈ effs, isChromeAction e = false := by
  unfold handle_nc_mouse_down_msg
  cases hci : st.callbacks_input with
  | none => exact ⟨st, [], rfl, rfl, by simp⟩
  | some f =>
    obtain ⟨hp, hd⟩ := hnc f hci (PlatformInput.mouseDown button
      (logical_point client.1 client.2 st.scale_factor) mods click_count false)
    dsimp only
    rw [hp, hd, if_neg (by decide)]
    exact ⟨_, _, rfl, rfl, by simp [isChromeAction]⟩

/-- Under a non-consuming input callback the non-client mouse-up
handler always reaches the button-action tail, having accumulated no
chrome-action effects. -/
theorem nc_up_reduces (st : WindowsWindowState) (button : MouseButton)
    (wparam : Nat) (client : Int × Int) (mods : Modifiers)
    (hnc : inputDoesNotConsume st) :
    ∃ effs, handle_nc_mouse_up_msg st button wparam client mods
        = handle_nc_mouse_up_action st button wparam effs
      ∧ ∀ e ∈ effs, isChromeAction e = false := by
  unfold handle_nc_mouse_up_msg
  cases hci : st.callbacks_input with
  | none => exact ⟨[], rfl, by simp⟩
  | some f =>
    obtain ⟨hp, hd⟩ := hnc f hci (PlatformInput.mouseUp button
      (logical_point client.1 client.2 st.scale_factor) mods 1)
    dsimp only
    rw [hp, if_neg (by decide)]
    exact ⟨_, rfl, by simp [isChromeAction]⟩

/-- Claim C6 (counterexample): with a registered input callback that
consumes the press, a left press on the minimize chrome button does
not record the button as armed, contrary to the claim that every such
press is recorded. -/
theorem c6_press_consumed_not_armed :
    (handle_nc_mouse_down_msg consumingState MouseButton.left HTMINBUTTON (0, 0)
        noMods 1).state.nc_button_pressed ≠ some HTMINBUTTON := by
  decide

/-- Claim C6 (amended): when the registered input callback (if any)
does not consume the event, the chrome-button protocol holds: a left
press on a chrome button only records that button as armed with no
action performed; the action (minimize / toggle maximize-restore /
post close) fires exactly on a left release over the same armed
button, which also clears the arm; any other release (a different
button area, a non-left button, or nothing armed) clears the armed
state without performing any action. -/
theorem c6_chrome_button_protocol (st : WindowsWindowState) (wparam : Nat)
    (client : Int × Int) (mods : Modifiers) (click_count : Nat)
    (hnc : inputDoesNotConsume st) :
    ((wparam = HTMINBUTTON ∨ wparam = HTMAXBUTTON ∨ wparam = HTCLOSE) →
      (handle_nc_mouse_down_msg st MouseButton.left wparam client mods
          click_count).state.nc_button_pressed = some wparam
      ∧ ∀ e ∈ (handle_nc_mouse_down_msg st MouseButton.left wparam client mods
          click_count).effects, isChromeAction e = false)
    ∧ (st.nc_button_pressed = some HTMINBUTTON → wparam = HTMINBUTTON →
        (handle_nc_mouse_up_msg st MouseButton.left wparam client mods).effects.filter
            isChromeAction = [Effect.minimizeWindow]
        ∧ (handle_nc_mouse_up_msg st MouseButton.left wparam client
            mods).state.nc_button_pressed = none)
    ∧ (st.nc_button_pressed = some HTMAXBUTTON → wparam = HTMAXBUTTON →
        (handle_nc_mouse_up_msg st MouseButton.left wparam client mods).effects.filter
            isChromeAction
          = [if st.maximized then Effect.showNormalWindow else Effect.maximizeWindow]
        ∧ (handle_nc_mouse_up_msg st MouseButton.left wparam client
            mods).state.nc_button_pressed = none)
    ∧ (st.nc_button_pressed = some HTCLOSE → wparam = HTCLOSE →
        (handle_nc_mouse_up_msg st MouseButton.left wparam client mods).effects.filter
            isChromeAction = [Effect.postCloseMessage]
        ∧ (handle_nc_mouse_up_msg st MouseButton.left wparam client
            mods).state.nc_button_pressed = none)
    ∧ (∀ lp, st.nc_button_pressed = some lp → wparam ≠ lp →
        (∀ e ∈ (handle_nc_mouse_up_msg st MouseButton.left wparam client mods).effects,
          isChromeAction e = false)
        ∧ (handle_nc_mouse_up_msg st MouseButton.left wparam client
            mods).state.nc_button_pressed = none)
    ∧ (∀ button, button ≠ MouseButton.left →
        (∀ e ∈ (handle_nc_mouse_up_msg st button wparam client mods).effects,
          isChromeAction e = false)
        ∧ (handle_nc_mouse_up_msg st button wparam client
            mods).state.nc_button_pressed = none)
    ∧ (st.nc_button_pressed = none →
        (∀ e ∈ (handle_nc_mouse_up_msg st MouseButton.left wparam client mods).effects,
          isChromeAction e = false)
        ∧ (handle_nc_mouse_up_msg st MouseButton.left wparam client
            mods).state.nc_button_pressed = none) := by
  obtain ⟨st₀, deffs, hdeq, hd0, hdne⟩ :=
    nc_down_reduces st MouseButton.left wparam client mods click_count hnc
  refine ⟨?_, ?_, ?_, ?_, ?_, ?_, ?_⟩
  · intro hwp
    rw [hdeq]
    unfold handle_nc_mouse_down_arm
    rw [if_pos rfl]
    rcases hwp with h | h | h <;> subst h
    · rw [if_pos rfl]
      exact ⟨rfl, hdne⟩
    · rw [if_neg (by decide), if_pos rfl]
      exact ⟨rfl, hdne⟩
    · rw [if_neg (by decide), if_neg (by decide), if_pos rfl]
      exact ⟨rfl, hdne⟩
  · intro harm hwp
    subst hwp
    obtain ⟨effs, heq, hne⟩ := nc_up_reduces st MouseButton.left HTMINBUTTON client mods hnc
    rw [heq]
    unfold handle_nc_mouse_up_action
    rw [if_pos rfl, harm]
    dsimp only
    rw [if_pos ⟨rfl, rfl⟩]
    refine ⟨?_, rfl⟩
    rw [List.filter_append]
    have hfe : effs.filter isChromeAction = [] :=
      List.filter_eq_nil_iff.mpr (fun a ha => by simp [hne a ha])
    rw [hfe]
    simp [isChromeAction]
  · intro harm hwp
    subst hwp
    obtain ⟨effs, heq, hne⟩ := nc_up_reduces st MouseButton.left HTMAXBUTTON client mods hnc
    rw [heq]
    unfold handle_nc_mouse_up_action
    rw [if_pos rfl, harm]
    dsimp only
    rw [if_neg (by decide), if_pos ⟨rfl, rfl⟩]
    refine ⟨?_, rfl⟩
    rw [List.filter_append]
    have hfe : effs.filter isChromeAction = [] :=
      List.filter_eq_nil_iff.mpr (fun a ha => by simp [hne a ha])
    rw [hfe]
    cases st.maximized <;> simp [isChromeAction]
  · intro harm hwp
    subst hwp
    obtain ⟨effs, heq, hne⟩ := nc_up_reduces st MouseButton.left HTCLOSE client mods hnc
    rw [heq]
    unfold handle_nc_mouse_up_action
    rw [if_pos rfl, harm]
    dsimp only
    rw [if_neg (by decide), if_neg (by decide), if_pos ⟨rfl, rfl⟩]
    refine ⟨?_, rfl⟩
    rw [List.filter_append]
    have hfe : effs.filter isChromeAction = [] :=
      List.filter_eq_nil_iff.mpr (fun a ha => by simp [hne a ha])
    rw [hfe]
    simp [isChromeAction]
  · intro lp harm hwl
    obtain ⟨effs, heq, hne⟩ := nc_up_reduces st MouseButton.left wparam client mods hnc
    rw [heq]
    unfold handle_nc_mouse_up_action
    rw [if_pos rfl, harm]
    dsimp only
    rw [if_neg (fun hc => hwl (hc.1.trans hc.2.symm)),
        if_neg (fun hc => hwl (hc.1.trans hc.2.symm)),
        if_neg (fun hc => hwl (hc.1.trans hc.2.symm))]
    exact ⟨hne, rfl⟩
  · intro button hbl
    obtain ⟨effs, heq, hne⟩ := nc_up_reduces st button wparam client mods hnc
    rw [heq]
    unfold handle_nc_mouse_up_action
    rw [if_neg hbl]
    exact ⟨hne, rfl⟩
  · intro harm
    obtain ⟨effs, heq, hne⟩ := nc_up_reduces st MouseButton.left wparam client mods hnc
    rw [heq]
    unfold handle_nc_mouse_up_action
    rw [if_pos rfl, harm]
    exact ⟨hne, rfl⟩

/-- Witness for C6: with no input callback registered and the minimize
button armed, a left release over the minimize button performs exactly
the minimize action and clears the armed state. -/
theorem c6_chrome_button_protocol_witness :
    (handle_nc_mouse_up_msg {plainState with nc_button_pressed := some HTMINBUTTON}
        MouseButton.left HTMINBUTTON (0, 0) noMods).effects.filter isChromeAction
      = [Effect.minimizeWindow]
    ∧ (handle_nc_mouse_up_msg {plainState with nc_button_pressed := some HTMINBUTTON}
        MouseButton.left HTMINBUTTON (0, 0) noMods).state.nc_button_pressed = none :=
  (c6_chrome_button_protocol {plainState with nc_button_pressed := some HTMINBUTTON}
    HTMINBUTTON (0, 0) noMods 1 (fun _ h => nomatch h)).2.1 rfl rfl

/-- The key-event builder never touches the callback slots: the input
callback and input-handler presence survive `handle_key_event`. -/
theorem handle_key_event_preserves_slots (st : WindowsWindowState) (mods : Modifiers)
    (caps : Capslock) (key : VKeyMsg) (f : Keystroke → PlatformInput) :
    (handle_key_event st mods caps key f).1.callbacks_input = st.callbacks_input
    ∧ (handle_key_event st mods caps key f).1.input_handler = st.input_handler := by
  unfold handle_key_event
  cases key with
  | modifierKey => by_cases h : st.last_reported_modifiers = some mods <;> simp [h]
  | packet => exact ⟨rfl, rfl⟩
  | capital => by_cases h : st.last_reported_capslock = some caps <;> simp [h]
  | normal r => exact ⟨rfl, rfl⟩

/-- Mouse tracking only flips the hovered flag: the input callback slot
is untouched. -/
theorem start_tracking_preserves_input_cb (st : WindowsWindowState) (hcb : Bool) :
    (start_tracking_mouse st hcb).1.callbacks_input = st.callbacks_input := by
  unfold start_tracking_mouse
  by_cases hst : st.hovered <;> simp [hst]

/-- Mouse tracking emits at most a hover-change effect, never an input
event. -/
theorem start_tracking_no_input_events (st : WindowsWindowState) (hcb : Bool) :
    ∀ e ∈ (start_tracking_mouse st hcb).2, ∀ pi, e ≠ Effect.inputEvent pi := by
  unfold start_tracking_mouse
  cases hh : st.hovered <;> cases hcb <;> simp [hh]

/-- Claim C7 (counterexample): with the input callback slot empty, a
mouse-move handler returns result 1 and the router hands LRESULT(1)
back to the OS — it does not fall through to default processing, so
the claimed "returns not-handled, host performs default processing"
behaviour does not hold. -/
theorem c7_empty_slot_not_default_processed :
    router_result (handle_mouse_move_msg plainState 10 10 0 noMods false).result
        = RouterResult.lresult 1
    ∧ router_result (handle_mouse_move_msg plainState 10 10 0 noMods false).result
        ≠ RouterResult.defWindowProc := by
  constructor <;> decide

/-- Claim C7 (amended): when the input callback slot is empty, the
mouse-move, mouse-down, mouse-up, wheel, key-down (outside an active
composition) and key-up handlers deliver no input event and return the
value 1, which the router returns to the OS as LRESULT(1) instead of
performing default processing; for mouse-down, mouse-up and wheel the
state is completely untouched. -/
theorem c7_empty_input_slot_behavior (st : WindowsWindowState)
    (hci : st.callbacks_input = none) :
    (∀ x y wl mods hcb,
        (handle_mouse_move_msg st x y wl mods hcb).result = some 1
        ∧ ∀ e ∈ (handle_mouse_move_msg st x y wl mods hcb).effects,
            ∀ pi, e ≠ Effect.inputEvent pi)
    ∧ (∀ button x y mods cc,
        handle_mouse_down_msg st button x y mods cc = ⟨st, some 1, []⟩)
    ∧ (∀ button x y mods, handle_mouse_up_msg st button x y mods = ⟨st, some 1, []⟩)
    ∧ (∀ wd client mods, handle_mouse_wheel_msg st wd client mods = ⟨st, some 1, []⟩)
    ∧ (∀ key mods caps held marked,
        (handle_keydown_msg st key mods caps held marked).effects = []
        ∧ ((st.input_handler && marked) = false →
            (handle_keydown_msg st key mods caps held marked).result = some 1))
    ∧ (∀ key mods caps,
        (handle_keyup_msg st key mods caps).effects = []
        ∧ (handle_keyup_msg st key mods caps).result = some 1)
    ∧ router_result (some 1) = RouterResult.lresult 1 := by
  refine ⟨?_, ?_, ?_, ?_, ?_, ?_, rfl⟩
  · intro x y wl mods hcb
    unfold handle_mouse_move_msg
    have h1 := start_tracking_preserves_input_cb st hcb
    rw [hci] at h1
    dsimp only
    rw [h1]
    exact ⟨rfl, start_tracking_no_input_events st hcb⟩
  · intro button x y mods cc
    unfold handle_mouse_down_msg
    rw [hci]
  · intro button x y mods
    unfold handle_mouse_up_msg
    rw [hci]
  · intro wd client mods
    unfold handle_mouse_wheel_msg
    rw [hci]
  · intro key mods caps held marked
    have hpres := handle_key_event_preserves_slots st mods caps key
      (fun ks => PlatformInput.keyDown ks held)
    unfold handle_keydown_msg
    rcases hke : handle_key_event st mods caps key
        (fun ks => PlatformInput.keyDown ks held) with ⟨st', ev⟩
    rw [hke] at hpres
    obtain ⟨hp1, hp2⟩ := hpres
    rw [hci] at hp1
    cases ev with
    | none => exact ⟨rfl, fun _ => rfl⟩
    | some input =>
      dsimp only
      dsimp only at hp1 hp2
      cases hcomp : st'.input_handler && marked
      · rw [if_neg (by decide), hp1]
        exact ⟨rfl, fun _ => rfl⟩
      · rw [if_pos rfl]
        refine ⟨rfl, fun hmk => ?_⟩
        rw [hp2, hmk] at hcomp
        exact absurd hcomp (by decide)
  · intro key mods caps
    have hpres := handle_key_event_preserves_slots st mods caps key
      (fun ks => PlatformInput.keyUp ks)
    unfold handle_keyup_msg
    rcases hke : handle_key_event st mods caps key
        (fun ks => PlatformInput.keyUp ks) with ⟨st', ev⟩
    rw [hke] at hpres
    obtain ⟨hp1, _⟩ := hpres
    rw [hci] at hp1
    cases ev with
    | none => exact ⟨rfl, rfl⟩
    | some input =>
      dsimp only
      dsimp only at hp1
      rw [hp1]
      exact ⟨rfl, rfl⟩

/-- Witness for C7: on `plainState` (no input callback registered), a
client-area mouse-up leaves the state untouched, delivers nothing and
returns 1. -/
theorem c7_empty_input_slot_behavior_witness :
    handle_mouse_up_msg plainState MouseButton.left 5 5 noMods
      = ⟨plainState, some 1, []⟩ :=
  (c7_empty_input_slot_behavior plainState rfl).2.2.1 MouseButton.left 5 5 noMods

end WinMsg
